import Mathlib

/-!
Verification of the USB RGB protocol layer of UbuntuROGAura
(`src/native_rgb.py`), shallowly embedded in Lean 4.

Strings are modelled as `List Char`; machine bytes as `Nat` values below
256 (the code only ever stores in-range values into `array('B', ...)`
buffers after clamping/validation).  USB transfers are modelled by an
oracle `Nat → Bool` giving the success of the k-th control transfer
attempted during an operation; the sequencer returns the trace of packets
it attempted to send together with the boolean result, exactly mirroring
the control flow of `_send_messages` / `_send_message`.
-/

/-- Character-class test mirroring the hexadecimal digits accepted by
Python's `int(s, 16)`: `0-9`, `a-f`, `A-F` (by code point). -/
def isHexChar (c : Char) : Bool :=
  (48 ≤ c.toNat && c.toNat ≤ 57) || (97 ≤ c.toNat && c.toNat ≤ 102) ||
    (65 ≤ c.toNat && c.toNat ≤ 70)

/-- Value of a hexadecimal digit character. -/
def hexVal (c : Char) : Nat :=
  if 48 ≤ c.toNat && c.toNat ≤ 57 then c.toNat - 48
  else if 97 ≤ c.toNat then c.toNat - 87
  else c.toNat - 55

/-- ASCII characters stripped as whitespace by Python's `int` parser
(`str.isspace`): space, tab, LF, CR, VT, FF and the separators
0x1C-0x1F.  (Python additionally accepts some non-ASCII whitespace and
digit characters; the embedding is faithful on ASCII input.) -/
def isPySpace (c : Char) : Bool :=
  c.toNat = 32 || c.toNat = 9 || c.toNat = 10 || c.toNat = 13 ||
    c.toNat = 11 || c.toNat = 12 || (28 ≤ c.toNat && c.toNat ≤ 31)

/-- Python's `int(s, 16)` applied to a two-character string `⟨a, b⟩`:
whitespace is stripped at either end, a single leading sign is accepted,
and the remaining characters must be hexadecimal digits (an underscore
would need a digit on both sides, impossible in two characters, and a
`0x` prefix leaves no digits, so neither can occur in a success).
`none` models the `ValueError` raise. -/
def pyIntHex2 (a b : Char) : Option Int :=
  if isPySpace a then (if isHexChar b then some (hexVal b) else none)
  else if isPySpace b then (if isHexChar a then some (hexVal a) else none)
  else if a = '+' then (if isHexChar b then some (hexVal b) else none)
  else if a = '-' then (if isHexChar b then some (-(hexVal b : Int)) else none)
  else if isHexChar a && isHexChar b then some (16 * hexVal a + hexVal b)
  else none

/-- Clamp of one colour channel, mirroring `max(0, min(255, x))` in
`Color.__init__`; the result is a byte value. -/
def clamp8 (x : Int) : Nat := (max 0 (min 255 x)).toNat

/-- An RGB colour after construction: each channel already clamped to
[0, 255] by `Color.__init__`. -/
structure Color where
  red : Nat
  green : Nat
  blue : Nat
deriving DecidableEq, Repr

/-- The `Color(red, green, blue)` constructor: clamps each channel
independently. -/
def Color.ofInts (r g b : Int) : Color :=
  ⟨clamp8 r, clamp8 g, clamp8 b⟩

/-- The body of `Color.from_hex` after the `#` strip: exactly 6
characters are required (else `ValueError`, modelled by `none`), then
the three two-character groups are parsed with Python's `int(_, 16)` and
the colour is built through the clamping constructor. -/
def parse_groups : List Char → Option Color
  | [c0, c1, c2, c3, c4, c5] =>
    match pyIntHex2 c0 c1, pyIntHex2 c2 c3, pyIntHex2 c4 c5 with
    | some r, some g, some b => some (Color.ofInts r g b)
    | _, _, _ => none
  | _ => none

/-- `Color.from_hex`: strips one optional leading `#`
(`hex_color.startswith('#')` / `hex_color[1:]`), then parses the
remaining characters. -/
def Color.from_hex (s : List Char) : Option Color :=
  parse_groups (if s.head? = some '#' then s.tail else s)

/-- The three speed levels of the `Speed` enum. -/
inductive Speed where
  | SLOW
  | MEDIUM
  | FAST
deriving DecidableEq, Repr

/-- The enum member's integer `value` (1, 2, 3). -/
def Speed.value : Speed → Nat
  | .SLOW => 1
  | .MEDIUM => 2
  | .FAST => 3

/-- `Speed.byte_value`: `[0xe1, 0xeb, 0xf5][self.value - 1]`. -/
def Speed.byte_value (s : Speed) : Nat :=
  [0xe1, 0xeb, 0xf5].getD (s.value - 1) 0

/-- Modelled from the spec (`Speed.fromLevel`): the Python call
`Speed(n)` on an integer, returning the enum member whose value is `n`
and raising `ValueError` (modelled by `none`) for every other integer. -/
def Speed.fromLevel (n : Int) : Option Speed :=
  if n = 1 then some .SLOW
  else if n = 2 then some .MEDIUM
  else if n = 3 then some .FAST
  else none

/-- `MESSAGE_SET`, the fixed commit trailer packet `0x5D 0xB5` + 15 zero
bytes. -/
def MESSAGE_SET : List Nat := [0x5d, 0xb5] ++ List.replicate 15 0

/-- `MESSAGE_APPLY`, the fixed apply trailer packet `0x5D 0xB4` + 15 zero
bytes. -/
def MESSAGE_APPLY : List Nat := [0x5d, 0xb4] ++ List.replicate 15 0

/-- `MESSAGE_BRIGHTNESS`, header `0x5A 0xBA 0xC5 0xC4` + 13 zero bytes. -/
def MESSAGE_BRIGHTNESS : List Nat := [0x5a, 0xba, 0xc5, 0xc4] ++ List.replicate 13 0

/-- `_create_message`: a 17-byte buffer of zeros with byte 0 = `0x5D`
and byte 1 = `0xB3`. -/
def create_message : List Nat :=
  ((List.replicate 17 0).set 0 0x5d).set 1 0xb3

/-- Payload packet of `single_static`: colour channels at bytes 4-6. -/
def single_static_msg (c : Color) : List Nat :=
  ((create_message.set 4 c.red).set 5 c.green).set 6 c.blue

/-- Payload packet of `single_breathing`. -/
def single_breathing_msg (c1 c2 : Color) (sp : Speed) : List Nat :=
  ((((((((create_message.set 3 1).set 4 c1.red).set 5 c1.green).set 6
    c1.blue).set 7 sp.byte_value).set 9 1).set 10 c2.red).set 11
    c2.green).set 12 c2.blue

/-- Payload packet of `single_colorcycle`. -/
def single_colorcycle_msg (sp : Speed) : List Nat :=
  ((create_message.set 3 2).set 4 0xff).set 7 sp.byte_value

/-- Payload packet of `rainbow_cycle`. -/
def rainbow_cycle_msg (sp : Speed) : List Nat :=
  ((create_message.set 3 3).set 4 0xff).set 7 sp.byte_value

/-- One zone packet of `multi_static`: zone byte at index 2,
colour at 4-6, fixed `0xEB` at byte 7. -/
def multi_static_zone_msg (zone : Nat) (c : Color) : List Nat :=
  ((((create_message.set 2 zone).set 4 c.red).set 5 c.green).set 6
    c.blue).set 7 0xeb

/-- One zone packet of `multi_breathing`: zone byte at index 2, mode 1 at
byte 3, colour at 4-6, speed byte at 7. -/
def multi_breathing_zone_msg (zone : Nat) (c : Color) (sp : Speed) : List Nat :=
  (((((create_message.set 2 zone).set 3 1).set 4 c.red).set 5
    c.green).set 6 c.blue).set 7 sp.byte_value

/-- The truncate/pad step shared by `multi_static` and `multi_breathing`:
more than 4 colours are cut to the first 4 (`colors[:4]`), fewer than 4
are extended with white `Color(255, 255, 255)` entries. -/
def pad_colors (colors : List Color) : List Color :=
  if colors.length > 4 then colors.take 4
  else colors ++ List.replicate (4 - colors.length) (Color.ofInts 255 255 255)

/-- The `for i, color in enumerate(colors)` loop of `multi_static`,
started at index `i`: zone byte is `i + 1`. -/
def multi_static_loop : Nat → List Color → List (List Nat)
  | _, [] => []
  | i, c :: rest => multi_static_zone_msg (i + 1) c :: multi_static_loop (i + 1) rest

/-- The packets built by `multi_static` before sending. -/
def multi_static_msgs (colors : List Color) : List (List Nat) :=
  multi_static_loop 0 (pad_colors colors)

/-- The `for i, color in enumerate(colors)` loop of `multi_breathing`. -/
def multi_breathing_loop (sp : Speed) : Nat → List Color → List (List Nat)
  | _, [] => []
  | i, c :: rest =>
    multi_breathing_zone_msg (i + 1) c sp :: multi_breathing_loop sp (i + 1) rest

/-- The packets built by `multi_breathing` before sending. -/
def multi_breathing_msgs (colors : List Color) (sp : Speed) : List (List Nat) :=
  multi_breathing_loop sp 0 (pad_colors colors)

/-- The payload loop of `_send_messages`, started with `k` transfers
already attempted: each message is handed to `_send_message`, whose
success is the oracle's verdict on the next transfer index; the first
failure stops the loop.  Returns the trace of packets attempted, the next
transfer index, and the loop's boolean outcome. -/
def send_payload (o : Nat → Bool) : Nat → List (List Nat) → List (List Nat) × Nat × Bool
  | k, [] => ([], k, true)
  | k, m :: rest =>
    if o k then
      let r := send_payload o (k + 1) rest
      (m :: r.1, r.2.1, r.2.2)
    else ([m], k + 1, false)

/-- `_send_messages(messages, set_and_apply)`: sends the payload packets
in order, aborting at the first failure; when `set_and_apply` is true and
all payloads succeeded it then sends `MESSAGE_SET` and, if that
succeeded, `MESSAGE_APPLY`, each failure aborting with overall failure.
Returns the trace of packets attempted and the boolean result. -/
def send_messages (o : Nat → Bool) (msgs : List (List Nat)) (set_and_apply : Bool) :
    List (List Nat) × Bool :=
  let p := send_payload o 0 msgs
  if p.2.2 = false then (p.1, false)
  else if set_and_apply then
    if o p.2.1 = false then (p.1 ++ [MESSAGE_SET], false)
    else if o (p.2.1 + 1) = false then (p.1 ++ [MESSAGE_SET, MESSAGE_APPLY], false)
    else (p.1 ++ [MESSAGE_SET, MESSAGE_APPLY], true)
  else (p.1, true)

/-- `set_brightness(brightness)`: rejects levels outside [0, 3] before
any transfer, else sends the single brightness packet with
`set_and_apply=False`. -/
def set_brightness (o : Nat → Bool) (brightness : Int) : List (List Nat) × Bool :=
  if !(0 ≤ brightness && brightness ≤ 3) then ([], false)
  else send_messages o [MESSAGE_BRIGHTNESS.set 4 brightness.toNat] false

/-- `single_static(color)`. -/
def single_static (o : Nat → Bool) (c : Color) : List (List Nat) × Bool :=
  send_messages o [single_static_msg c] true

/-- `single_breathing(color1, color2, speed)`. -/
def single_breathing (o : Nat → Bool) (c1 c2 : Color) (sp : Speed) :
    List (List Nat) × Bool :=
  send_messages o [single_breathing_msg c1 c2 sp] true

/-- `single_colorcycle(speed)`. -/
def single_colorcycle (o : Nat → Bool) (sp : Speed) : List (List Nat) × Bool :=
  send_messages o [single_colorcycle_msg sp] true

/-- `rainbow_cycle(speed)`. -/
def rainbow_cycle (o : Nat → Bool) (sp : Speed) : List (List Nat) × Bool :=
  send_messages o [rainbow_cycle_msg sp] true

/-- `multi_static(colors)`. -/
def multi_static (o : Nat → Bool) (colors : List Color) : List (List Nat) × Bool :=
  send_messages o (multi_static_msgs colors) true

/-- `multi_breathing(colors, speed)`. -/
def multi_breathing (o : Nat → Bool) (colors : List Color) (sp : Speed) :
    List (List Nat) × Bool :=
  send_messages o (multi_breathing_msgs colors sp) true

/-- The local colour list built by `rainbow()`: red, yellow, cyan,
magenta via the `Color` constructor. -/
def rainbow_colors : List Color :=
  [Color.ofInts 255 0 0, Color.ofInts 255 255 0,
   Color.ofInts 0 255 255, Color.ofInts 255 0 255]

/-- `rainbow()`: `multi_static` on the fixed list red, yellow, cyan,
magenta. -/
def rainbow (o : Nat → Bool) : List (List Nat) × Bool :=
  multi_static o rainbow_colors

/-- `apply_custom_color(hex_color)`: parses the hex string, returning
failure with no transfer on `ValueError`, else `single_static`. -/
def apply_custom_color (o : Nat → Bool) (hex_color : List Char) :
    List (List Nat) × Bool :=
  match Color.from_hex hex_color with
  | some c => single_static o c
  | none => ([], false)

/-- In-place effect of `multi_static` on the caller-supplied Python list:
`colors.extend(...)` (the `< 4` branch) mutates the caller's list object,
while `colors = colors[:4]` (the `> 4` branch) rebinds a local name and
leaves the caller's list untouched.  Returns the caller-visible list
after the call. -/
def multi_static_caller_list (colors : List Color) : List Color :=
  if colors.length < 4 then
    colors ++ List.replicate (4 - colors.length) (Color.ofInts 255 255 255)
  else colors

/-- In-place effect of `multi_breathing` on the caller-supplied list;
the truncate/pad code is identical to `multi_static`. -/
def multi_breathing_caller_list (colors : List Color) : List Color :=
  if colors.length < 4 then
    colors ++ List.replicate (4 - colors.length) (Color.ofInts 255 255 255)
  else colors

/-- Host-side USB state outside the session object: whether the kernel
driver is currently bound to interface (0,0), and whether this process
holds the exclusive interface claim. -/
structure World where
  kernelAttached : Bool
  claimed : Bool
deriving DecidableEq, Repr

/-- The `RogAuraUSB` session fields observable across calls: whether
`self.device` / `self.interface` are set, and the
`kernel_driver_was_active` flag (a missing attribute is modelled as
`false`, matching the `hasattr` guard in `disconnect`). -/
structure Session where
  device : Bool
  intf : Bool
  kdwa : Bool
deriving DecidableEq, Repr

/-- Outcomes of the fallible USB calls made by `connect`: whether an
allow-listed device is found, whether `get_active_configuration`
succeeds directly, whether the `set_configuration` fallback and the
retried `get_active_configuration` succeed, and whether
`detach_kernel_driver` / `claim_interface` succeed. -/
structure ConnectOracle where
  found : Bool
  cfgActiveOk : Bool
  setCfgOk : Bool
  cfgActiveOk2 : Bool
  detachOk : Bool
  claimOk : Bool
deriving DecidableEq, Repr

/-- `connect()`: resets `self.device`, scans the allow-list, and on a
match runs configuration, interface selection, conditional kernel-driver
detach (a `USBError` there is only logged and the flow continues), and
the interface claim; any exception escaping to the outer handler returns
`False` with no cleanup.  `is_kernel_driver_active` reports the world's
driver binding.  Returns the session, the world, and the boolean
result. -/
def connect (o : ConnectOracle) (s : Session) (w : World) :
    Session × World × Bool :=
  let s := { s with device := false }
  if !o.found then (s, w, false)
  else
    let s := { s with device := true }
    if !(o.cfgActiveOk || (o.setCfgOk && o.cfgActiveOk2)) then (s, w, false)
    else
      let s := { s with intf := true, kdwa := false }
      if w.kernelAttached then
        if o.detachOk then
          let s := { s with kdwa := true }
          let w := { w with kernelAttached := false }
          if o.claimOk then (s, { w with claimed := true }, true)
          else (s, w, false)
        else
          if o.claimOk then (s, { w with claimed := true }, true)
          else (s, w, false)
      else
        if o.claimOk then (s, { w with claimed := true }, true)
        else (s, w, false)

/-- The three externally visible actions `disconnect` can attempt. -/
inductive DAct where
  | release
  | reattach
  | dispose
deriving DecidableEq, Repr

/-- Outcomes of the fallible USB calls made by `disconnect`. -/
structure DisconnectOracle where
  releaseOk : Bool
  reattachOk : Bool
deriving DecidableEq, Repr

/-- `disconnect()`: only acts when both `self.device` and
`self.interface` are set.  Releases the interface (an exception there
skips reattach and dispose), reattaches the kernel driver only when
`kernel_driver_was_active` is set (its failure is caught and the flow
continues), disposes the handle, and in the `finally` block clears
`self.device` and `self.interface` (the `kernel_driver_was_active`
attribute is not cleared).  Returns the session, the world, and the
trace of attempted actions. -/
def disconnect (o : DisconnectOracle) (s : Session) (w : World) :
    Session × World × List DAct :=
  if s.device && s.intf then
    if !o.releaseOk then
      ({ s with device := false, intf := false }, w, [DAct.release])
    else
      let w := { w with claimed := false }
      if s.kdwa then
        if o.reattachOk then
          ({ s with device := false, intf := false },
           { w with kernelAttached := true },
           [DAct.release, DAct.reattach, DAct.dispose])
        else
          ({ s with device := false, intf := false }, w,
           [DAct.release, DAct.reattach, DAct.dispose])
      else
        ({ s with device := false, intf := false }, w,
         [DAct.release, DAct.dispose])
  else (s, w, [])

/-- The spec's pattern `^#?[0-9A-Fa-f]{6}$` as a boolean predicate: one
optional leading `#`, then exactly six hexadecimal digit characters
(`#` is not a hexadecimal digit, so consuming it when present is
forced). -/
def matches_hex_color (s : List Char) : Bool :=
  let t := if s.head? = some '#' then s.tail else s
  t.length = 6 && t.all isHexChar

/-! ## Helper lemmas -/

theorem isHexChar_classify (c : Char) (h : isHexChar c = true) :
    c ≠ '#' ∧ c ≠ '+' ∧ c ≠ '-' ∧ isPySpace c = false := by
  refine ⟨?_, ?_, ?_, ?_⟩
  · rintro rfl; exact absurd h (by decide)
  · rintro rfl; exact absurd h (by decide)
  · rintro rfl; exact absurd h (by decide)
  · simp only [isHexChar, Bool.or_eq_true, Bool.and_eq_true,
      decide_eq_true_eq] at h
    simp only [isPySpace, Bool.or_eq_false_iff, Bool.and_eq_false_iff,
      decide_eq_false_iff_not, decide_eq_true_eq]
    omega

theorem hexVal_le (c : Char) (h : isHexChar c = true) : hexVal c ≤ 15 := by
  simp only [isHexChar, Bool.or_eq_true, Bool.and_eq_true,
    decide_eq_true_eq] at h
  simp only [hexVal, Bool.and_eq_true, decide_eq_true_eq]
  split
  · omega
  · split <;> omega

theorem pyIntHex2_hexhex (a b : Char) (ha : isHexChar a = true)
    (hb : isHexChar b = true) :
    pyIntHex2 a b = some (16 * (hexVal a : Int) + hexVal b) := by
  have ca := isHexChar_classify a ha
  have cb := isHexChar_classify b hb
  simp [pyIntHex2, ca.2.2.2, cb.2.2.2, ca.2.1, ca.2.2.1, ha, hb]

theorem pyIntHex2_good (a b : Char) (v : Int) (h : pyIntHex2 a b = some v) :
    (isHexChar a || a = '+' || a = '-' || isPySpace a) = true ∧
      (isHexChar b || b = '+' || b = '-' || isPySpace b) = true := by
  simp only [pyIntHex2] at h
  split at h
  · next hs =>
    split at h
    · next hb => simp [hs, hb]
    · exact absurd h (by simp)
  · split at h
    · next hsb =>
      split at h
      · next hha => simp_all
      · exact absurd h (by simp)
    · split at h
      · next hplus =>
        split at h
        · next hb => simp_all
        · exact absurd h (by simp)
      · split at h
        · next hminus =>
          split at h
          · next hb => simp_all
          · exact absurd h (by simp)
        · split at h
          · next hab => simp_all
          · exact absurd h (by simp)

theorem clamp8_ofNat (n : Nat) (h : n ≤ 255) : clamp8 (n : Int) = n := by
  simp only [clamp8]
  omega

theorem send_payload_all_ok (o : Nat → Bool) (msgs : List (List Nat)) :
    ∀ k, (∀ j, j < msgs.length → o (k + j) = true) →
      send_payload o k msgs = (msgs, k + msgs.length, true) := by
  induction msgs with
  | nil => intro k _; simp [send_payload]
  | cons m rest ih =>
    intro k h
    have h0 : o k = true := by simpa using h 0 (by simp)
    simp only [send_payload, h0, if_pos]
    rw [ih (k + 1) (fun j hj => by
      have hlt : j + 1 < (m :: rest).length := by simp; omega
      have := h (j + 1) hlt
      rwa [show k + (j + 1) = k + 1 + j by omega] at this)]
    rw [List.length_cons, show k + 1 + rest.length = k + (rest.length + 1) by omega]

theorem send_payload_first_fail (o : Nat → Bool) (msgs : List (List Nat)) :
    ∀ k i, i < msgs.length → o (k + i) = false →
      (∀ j, j < i → o (k + j) = true) →
      send_payload o k msgs = (msgs.take (i + 1), k + i + 1, false) := by
  induction msgs with
  | nil => intro k i hi _ _; simp at hi
  | cons m rest ih =>
    intro k i hi hfail hok
    cases i with
    | zero =>
      have h0 : o k = false := by simpa using hfail
      simp [send_payload, h0]
    | succ n =>
      have h0 : o k = true := by simpa using hok 0 (Nat.succ_pos _)
      simp only [send_payload, h0, if_pos]
      rw [ih (k + 1) n (by simpa using Nat.lt_of_succ_lt_succ hi)
        (by rwa [show k + 1 + n = k + (n + 1) by omega])
        (fun j hj => by
          have := hok (j + 1) (Nat.succ_lt_succ hj)
          rwa [show k + (j + 1) = k + 1 + j by omega] at this)]
      rw [List.take_succ_cons, show k + 1 + n + 1 = k + (n + 1) + 1 by omega]

theorem send_messages_all_ok (o : Nat → Bool) (msgs : List (List Nat))
    (h : ∀ j, j < msgs.length → o j = true)
    (hs : o msgs.length = true) (ha : o (msgs.length + 1) = true) :
    send_messages o msgs true = (msgs ++ [MESSAGE_SET, MESSAGE_APPLY], true) := by
  have hp := send_payload_all_ok o msgs 0 (fun j hj => by simpa using h j hj)
  rw [Nat.zero_add] at hp
  simp [send_messages, hp, hs, ha]

theorem send_messages_commit_fail (o : Nat → Bool) (msgs : List (List Nat))
    (h : ∀ j, j < msgs.length → o j = true)
    (hs : o msgs.length = false) :
    send_messages o msgs true = (msgs ++ [MESSAGE_SET], false) := by
  have hp := send_payload_all_ok o msgs 0 (fun j hj => by simpa using h j hj)
  rw [Nat.zero_add] at hp
  simp [send_messages, hp, hs]

theorem send_messages_apply_fail (o : Nat → Bool) (msgs : List (List Nat))
    (h : ∀ j, j < msgs.length → o j = true)
    (hs : o msgs.length = true) (ha : o (msgs.length + 1) = false) :
    send_messages o msgs true = (msgs ++ [MESSAGE_SET, MESSAGE_APPLY], false) := by
  have hp := send_payload_all_ok o msgs 0 (fun j hj => by simpa using h j hj)
  rw [Nat.zero_add] at hp
  simp [send_messages, hp, hs, ha]

theorem send_messages_payload_fail (o : Nat → Bool) (msgs : List (List Nat))
    (i : Nat) (hi : i < msgs.length) (hfail : o i = false)
    (hok : ∀ j, j < i → o j = true) :
    send_messages o msgs true = (msgs.take (i + 1), false) := by
  have hp := send_payload_first_fail o msgs 0 i hi (by simpa using hfail)
    (fun j hj => by simpa using hok j hj)
  simp [send_messages, hp]

/-! ## Claim C2 -/

/-- C2: for every effect payload list, the sequencer sends the payload
packets in list order; only after every payload packet succeeds does it
send the commit packet (`0x5D 0xB5 ...`) and then the apply packet
(`0x5D 0xB4 ...`); the first failing transfer — payload or trailer —
aborts immediately with no later packet sent, and the operation reports
failure; and every effect operation routes its payload packets through
this sequencer with `set_and_apply` enabled. -/
theorem sequencer_commit_apply_order (o : Nat → Bool) (msgs : List (List Nat)) :
    (MESSAGE_SET.take 2 = [0x5d, 0xb5] ∧ MESSAGE_APPLY.take 2 = [0x5d, 0xb4]) ∧
    ((∀ j, j < msgs.length → o j = true) →
      (o msgs.length = true → o (msgs.length + 1) = true →
        send_messages o msgs true = (msgs ++ [MESSAGE_SET, MESSAGE_APPLY], true)) ∧
      (o msgs.length = false →
        send_messages o msgs true = (msgs ++ [MESSAGE_SET], false)) ∧
      (o msgs.length = true → o (msgs.length + 1) = false →
        send_messages o msgs true = (msgs ++ [MESSAGE_SET, MESSAGE_APPLY], false))) ∧
    (∀ i, i < msgs.length → o i = false → (∀ j, j < i → o j = true) →
      send_messages o msgs true = (msgs.take (i + 1), false)) ∧
    (∀ c, single_static o c = send_messages o [single_static_msg c] true) ∧
    (∀ c1 c2 sp, single_breathing o c1 c2 sp
      = send_messages o [single_breathing_msg c1 c2 sp] true) ∧
    (∀ sp, single_colorcycle o sp
      = send_messages o [single_colorcycle_msg sp] true) ∧
    (∀ sp, rainbow_cycle o sp = send_messages o [rainbow_cycle_msg sp] true) ∧
    (∀ cs, multi_static o cs = send_messages o (multi_static_msgs cs) true) ∧
    (∀ cs sp, multi_breathing o cs sp
      = send_messages o (multi_breathing_msgs cs sp) true) ∧
    (rainbow o = send_messages o (multi_static_msgs rainbow_colors) true) := by
  refine ⟨⟨by decide, by decide⟩, ?_, ?_, fun _ => rfl, fun _ _ _ => rfl,
    fun _ => rfl, fun _ => rfl, fun _ => rfl, fun _ _ => rfl, rfl⟩
  · intro h
    exact ⟨fun hs ha => send_messages_all_ok o msgs h hs ha,
      fun hs => send_messages_commit_fail o msgs h hs,
      fun hs ha => send_messages_apply_fail o msgs h hs ha⟩
  · intro i hi hfail hok
    exact send_messages_payload_fail o msgs i hi hfail hok

/-- Witness for C2: a concrete run in which the second of three payload
packets fails, so the third payload, the commit packet and the apply
packet are never sent and the result is failure. -/
theorem sequencer_commit_apply_order_witness :
    send_messages (fun k => decide (k ≠ 1))
        [create_message, create_message, create_message] true
      = ([create_message, create_message], false) := by
  have h := (sequencer_commit_apply_order (fun k => decide (k ≠ 1))
    [create_message, create_message, create_message]).2.2.1 1 (by decide)
    (by decide) (by decide)
  simpa using h

/-! ## Claim C5 -/

/-- C5: brightness levels outside [0, 3] are rejected with failure before
any transfer; a level in [0, 3] sends exactly one packet whose first four
bytes are `0x5A 0xBA 0xC5 0xC4`, whose byte 4 is the level, and neither
the commit nor the apply trailer packet is sent. -/
theorem set_brightness_spec (o : Nat → Bool) (b : Int) :
    (¬(0 ≤ b ∧ b ≤ 3) → set_brightness o b = ([], false)) ∧
    (0 ≤ b → b ≤ 3 →
      (set_brightness o b).1 = [MESSAGE_BRIGHTNESS.set 4 b.toNat] ∧
      (MESSAGE_BRIGHTNESS.set 4 b.toNat).take 4 = [0x5a, 0xba, 0xc5, 0xc4] ∧
      (MESSAGE_BRIGHTNESS.set 4 b.toNat).getD 4 0 = b.toNat ∧
      MESSAGE_SET ∉ (set_brightness o b).1 ∧
      MESSAGE_APPLY ∉ (set_brightness o b).1) := by
  constructor
  · intro h
    have hb : (0 ≤ b && b ≤ 3) = false := by
      rcases Decidable.not_and_iff_or_not.mp h with h' | h' <;> simp [h']
    simp [set_brightness, hb]
  · intro h0 h3
    have hb : (0 ≤ b && b ≤ 3) = true := by simp [h0, h3]
    have htr : (set_brightness o b).1 = [MESSAGE_BRIGHTNESS.set 4 b.toNat] := by
      cases ho : o 0 <;>
        simp [set_brightness, hb, send_messages, send_payload, ho]
    refine ⟨htr, rfl, ?_, ?_, ?_⟩
    · rfl
    · rw [htr]; simp [MESSAGE_SET, MESSAGE_BRIGHTNESS, List.set]
    · rw [htr]; simp [MESSAGE_APPLY, MESSAGE_BRIGHTNESS, List.set]

/-- Witness for C5: level 4 and level -1 are rejected with no transfer;
level 2 sends exactly the brightness packet with byte 4 = 2 and no
trailer. -/
theorem set_brightness_spec_witness :
    set_brightness (fun _ => true) 4 = ([], false) ∧
    set_brightness (fun _ => true) (-1) = ([], false) ∧
    (set_brightness (fun _ => true) 2).1
      = [MESSAGE_BRIGHTNESS.set 4 2] ∧
    MESSAGE_SET ∉ (set_brightness (fun _ => true) 2).1 := by
  refine ⟨(set_brightness_spec (fun _ => true) 4).1 (by omega),
    (set_brightness_spec (fun _ => true) (-1)).1 (by omega), ?_, ?_⟩
  · exact ((set_brightness_spec (fun _ => true) 2).2 (by omega) (by omega)).1
  · exact ((set_brightness_spec (fun _ => true) 2).2 (by omega)
      (by omega)).2.2.2.1

/-! ## Claim C8 -/

/-- C8: `Speed.fromLevel` fails on every integer outside {1, 2, 3} and
succeeds on 1, 2, 3 with protocol bytes `0xE1`, `0xEB`, `0xF5`
respectively. -/
theorem speed_fromLevel_spec :
    (∀ n : Int, n ≠ 1 → n ≠ 2 → n ≠ 3 → Speed.fromLevel n = none) ∧
    Speed.fromLevel 1 = some .SLOW ∧
    Speed.fromLevel 2 = some .MEDIUM ∧
    Speed.fromLevel 3 = some .FAST ∧
    Speed.SLOW.byte_value = 0xe1 ∧
    Speed.MEDIUM.byte_value = 0xeb ∧
    Speed.FAST.byte_value = 0xf5 := by
  refine ⟨?_, rfl, rfl, rfl, rfl, rfl, rfl⟩
  intro n h1 h2 h3
  simp [Speed.fromLevel, h1, h2, h3]

/-- Witness for C8: levels 4 and 0 are rejected, level 2 yields the
medium speed with byte `0xEB`. -/
theorem speed_fromLevel_spec_witness :
    Speed.fromLevel 4 = none ∧ Speed.fromLevel 0 = none ∧
    Speed.fromLevel 2 = some .MEDIUM ∧ Speed.MEDIUM.byte_value = 0xeb := by
  exact ⟨speed_fromLevel_spec.1 4 (by decide) (by decide) (by decide),
    speed_fromLevel_spec.1 0 (by decide) (by decide) (by decide),
    speed_fromLevel_spec.2.2.1, speed_fromLevel_spec.2.2.2.2.2.1⟩


/-! ## Claim C3 -/

theorem parse_groups_wrong_length (u : List Char) (h : u.length ≠ 6) :
    parse_groups u = none := by
  rcases u with _ | ⟨a0, _ | ⟨a1, _ | ⟨a2, _ | ⟨a3, _ | ⟨a4, _ | ⟨a5,
    _ | ⟨a6, rest⟩⟩⟩⟩⟩⟩⟩
  · rfl
  · rfl
  · rfl
  · rfl
  · rfl
  · rfl
  · exact absurd rfl h
  · rfl

theorem parse_groups_bad_char (u : List Char) (c : Char) (hc : c ∈ u)
    (hbad : (isHexChar c || c = '+' || c = '-' || isPySpace c) = false) :
    parse_groups u = none := by
  rcases u with _ | ⟨a0, _ | ⟨a1, _ | ⟨a2, _ | ⟨a3, _ | ⟨a4, _ | ⟨a5,
    _ | ⟨a6, rest⟩⟩⟩⟩⟩⟩⟩
  · rfl
  · rfl
  · rfl
  · rfl
  · rfl
  · rfl
  · rcases h01 : pyIntHex2 a0 a1 with _ | v0
    · simp [parse_groups, h01]
    rcases h23 : pyIntHex2 a2 a3 with _ | v1
    · simp [parse_groups, h01, h23]
    rcases h45 : pyIntHex2 a4 a5 with _ | v2
    · simp [parse_groups, h01, h23, h45]
    exfalso
    have g01 := pyIntHex2_good a0 a1 v0 h01
    have g23 := pyIntHex2_good a2 a3 v1 h23
    have g45 := pyIntHex2_good a4 a5 v2 h45
    simp only [List.mem_cons, List.not_mem_nil, or_false] at hc
    rcases hc with rfl | rfl | rfl | rfl | rfl | rfl
    · rw [g01.1] at hbad; exact Bool.noConfusion hbad
    · rw [g01.2] at hbad; exact Bool.noConfusion hbad
    · rw [g23.1] at hbad; exact Bool.noConfusion hbad
    · rw [g23.2] at hbad; exact Bool.noConfusion hbad
    · rw [g45.1] at hbad; exact Bool.noConfusion hbad
    · rw [g45.2] at hbad; exact Bool.noConfusion hbad
  · rfl

/-- Counterexample to C3: the string `+1a2b3` does not match
`^#?[0-9A-Fa-f]{6}$` (it contains `+`), yet `Color.from_hex` succeeds
and constructs a colour, because Python's `int(s, 16)` accepts a sign in
the two-character group `+1`. -/
theorem from_hex_malformed_counterexample :
    matches_hex_color ['+', '1', 'a', '2', 'b', '3'] = false ∧
    Color.from_hex ['+', '1', 'a', '2', 'b', '3']
      = some (Color.mk 1 162 179) := by
  decide

/-- C3 amended: on ASCII input, `Color.from_hex s` fails whenever the
string left after stripping one optional leading `#` does not have
length 6, and whenever it contains a character that is neither a
hexadecimal digit, a sign (`+`/`-`), nor parser whitespace; but a
6-character string may succeed without matching `^#?[0-9A-Fa-f]{6}$`
when a group uses a sign or whitespace character. -/
theorem from_hex_reject_malformed_amended (s : List Char)
    (_hascii : ∀ c ∈ s, c.toNat < 128) :
    ((if s.head? = some '#' then s.tail else s).length ≠ 6 →
      Color.from_hex s = none) ∧
    ((∃ c ∈ (if s.head? = some '#' then s.tail else s),
        (isHexChar c || c = '+' || c = '-' || isPySpace c) = false) →
      Color.from_hex s = none) := by
  exact ⟨fun hlen => parse_groups_wrong_length _ hlen,
    fun ⟨c, hc, hbad⟩ => parse_groups_bad_char _ c hc hbad⟩

/-- Witness for C3 amended: a 3-character string fails on length, and a
6-character string containing the non-hex character `z` fails. -/
theorem from_hex_reject_malformed_amended_witness :
    Color.from_hex ['1', '2', '3'] = none ∧
    Color.from_hex ['1', '2', 'z', '4', '5', '6'] = none := by
  refine ⟨(from_hex_reject_malformed_amended ['1', '2', '3']
    (by decide)).1 (by decide), ?_⟩
  exact (from_hex_reject_malformed_amended ['1', '2', 'z', '4', '5', '6']
    (by decide)).2 ⟨'z', by decide, by decide⟩

/-! ## Claim C7 -/

theorem clamp8_pair (a b : Nat) (ha : a ≤ 15) (hb : b ≤ 15) :
    clamp8 (16 * (a : Int) + b) = 16 * a + b := by
  simp only [clamp8]
  omega

/-- C7: for six hexadecimal digit characters, `Color.from_hex` succeeds
with the three two-digit groups as red, green, blue — with or without a
leading `#` — and the `single_static` payload packet built from the
parsed colour has byte 0 = `0x5D`, byte 1 = `0xB3`, and bytes 4, 5, 6
equal to the parsed red, green, blue. -/
theorem from_hex_roundtrip_packet (d0 d1 d2 d3 d4 d5 : Char)
    (h0 : isHexChar d0 = true) (h1 : isHexChar d1 = true)
    (h2 : isHexChar d2 = true) (h3 : isHexChar d3 = true)
    (h4 : isHexChar d4 = true) (h5 : isHexChar d5 = true) :
    Color.from_hex [d0, d1, d2, d3, d4, d5]
      = some (Color.mk (16 * hexVal d0 + hexVal d1)
          (16 * hexVal d2 + hexVal d3) (16 * hexVal d4 + hexVal d5)) ∧
    Color.from_hex ('#' :: [d0, d1, d2, d3, d4, d5])
      = some (Color.mk (16 * hexVal d0 + hexVal d1)
          (16 * hexVal d2 + hexVal d3) (16 * hexVal d4 + hexVal d5)) ∧
    single_static_msg (Color.mk (16 * hexVal d0 + hexVal d1)
        (16 * hexVal d2 + hexVal d3) (16 * hexVal d4 + hexVal d5))
      = [0x5d, 0xb3, 0, 0, 16 * hexVal d0 + hexVal d1,
          16 * hexVal d2 + hexVal d3, 16 * hexVal d4 + hexVal d5,
          0, 0, 0, 0, 0, 0, 0, 0, 0, 0] := by
  have hpg : parse_groups [d0, d1, d2, d3, d4, d5]
      = some (Color.mk (16 * hexVal d0 + hexVal d1)
          (16 * hexVal d2 + hexVal d3) (16 * hexVal d4 + hexVal d5)) := by
    rw [parse_groups, pyIntHex2_hexhex d0 d1 h0 h1,
      pyIntHex2_hexhex d2 d3 h2 h3, pyIntHex2_hexhex d4 d5 h4 h5]
    simp only [Color.ofInts,
      clamp8_pair _ _ (hexVal_le d0 h0) (hexVal_le d1 h1),
      clamp8_pair _ _ (hexVal_le d2 h2) (hexVal_le d3 h3),
      clamp8_pair _ _ (hexVal_le d4 h4) (hexVal_le d5 h5)]
  refine ⟨?_, ?_, rfl⟩
  · rw [Color.from_hex, if_neg]
    · exact hpg
    · intro h
      rw [List.head?] at h
      exact (isHexChar_classify d0 h0).1 (Option.some.injEq _ _ ▸ h)
  · have hstep : Color.from_hex ('#' :: [d0, d1, d2, d3, d4, d5])
        = parse_groups [d0, d1, d2, d3, d4, d5] := by
      simp [Color.from_hex, List.head?]
    exact hstep.trans hpg

/-- Witness for C7: `applyCustomColor("1A2B3C")`-style input: the parse
yields (0x1A, 0x2B, 0x3C), also with a leading `#`, and the static
packet carries those bytes at positions 4, 5, 6 under the `0x5D 0xB3`
header. -/
theorem from_hex_roundtrip_packet_witness :
    Color.from_hex ['1', 'A', '2', 'B', '3', 'C']
      = some (Color.mk 0x1a 0x2b 0x3c) ∧
    Color.from_hex ['#', '1', 'A', '2', 'B', '3', 'C']
      = some (Color.mk 0x1a 0x2b 0x3c) ∧
    single_static_msg (Color.mk 0x1a 0x2b 0x3c)
      = [0x5d, 0xb3, 0, 0, 0x1a, 0x2b, 0x3c,
          0, 0, 0, 0, 0, 0, 0, 0, 0, 0] := by
  have h := from_hex_roundtrip_packet '1' 'A' '2' 'B' '3' 'C'
    (by decide) (by decide) (by decide) (by decide) (by decide) (by decide)
  exact ⟨h.1.trans (by decide), h.2.1.trans (by decide),
    (h.2.2.symm.trans (by decide)).symm⟩

/-! ## Claim C4 -/

theorem multi_static_zone_msg_eq (z : Nat) (c : Color) :
    multi_static_zone_msg z c
      = [0x5d, 0xb3, z, 0, c.red, c.green, c.blue, 0xeb,
          0, 0, 0, 0, 0, 0, 0, 0, 0] := rfl

theorem multi_breathing_zone_msg_eq (z : Nat) (c : Color) (sp : Speed) :
    multi_breathing_zone_msg z c sp
      = [0x5d, 0xb3, z, 1, c.red, c.green, c.blue, sp.byte_value,
          0, 0, 0, 0, 0, 0, 0, 0, 0] := rfl

/-- C4: `multi_static` and `multi_breathing` always encode exactly 4
zone packets with zone bytes 1, 2, 3, 4 in that order; the zone colours
are the first `min 4` input colours in input order, padded with white
(`FF FF FF`) when fewer than 4 are supplied and truncated to the first 4
when more are supplied. -/
theorem multi_zone_four_packets (colors : List Color) (sp : Speed) :
    (multi_static_msgs colors).length = 4 ∧
    (multi_breathing_msgs colors sp).length = 4 ∧
    pad_colors colors
      = colors.take 4
          ++ List.replicate (4 - min colors.length 4) (Color.mk 255 255 255) ∧
    (multi_static_msgs colors).map (fun m => m.getD 2 0) = [1, 2, 3, 4] ∧
    (multi_breathing_msgs colors sp).map (fun m => m.getD 2 0)
      = [1, 2, 3, 4] ∧
    (multi_static_msgs colors).map
        (fun m => (m.getD 4 0, m.getD 5 0, m.getD 6 0))
      = (pad_colors colors).map (fun c => (c.red, c.green, c.blue)) ∧
    (multi_breathing_msgs colors sp).map
        (fun m => (m.getD 4 0, m.getD 5 0, m.getD 6 0))
      = (pad_colors colors).map (fun c => (c.red, c.green, c.blue)) := by
  rcases colors with _ | ⟨a0, _ | ⟨a1, _ | ⟨a2, _ | ⟨a3, rest⟩⟩⟩⟩
  · refine ⟨rfl, rfl, rfl, rfl, rfl, rfl, rfl⟩
  · refine ⟨rfl, rfl, rfl, rfl, rfl, rfl, rfl⟩
  · refine ⟨rfl, rfl, rfl, rfl, rfl, rfl, rfl⟩
  · refine ⟨rfl, rfl, rfl, rfl, rfl, rfl, rfl⟩
  · have hpad : pad_colors (a0 :: a1 :: a2 :: a3 :: rest)
        = [a0, a1, a2, a3] := by
      rcases rest with _ | ⟨a4, rest'⟩
      · rfl
      · rw [pad_colors, if_pos (by simp)]
        rfl
    have hmin : 4 - min (a0 :: a1 :: a2 :: a3 :: rest).length 4 = 0 := by
      simp
    refine ⟨?_, ?_, ?_, ?_, ?_, ?_, ?_⟩ <;>
      simp [multi_static_msgs, multi_breathing_msgs, hpad, hmin,
        multi_static_loop, multi_breathing_loop,
        multi_static_zone_msg_eq, multi_breathing_zone_msg_eq,
        List.take_cons]

/-! ## Claim C6 -/

/-- C6: `rainbow()` is exactly `multi_static` on the fixed colour list
red, yellow, cyan, magenta: its payload is the 4 static zone packets
with zone bytes 1, 2, 3, 4 carrying those colours in order, the shared
commit+apply trailer pair follows when all 4 payload packets succeed,
and no trailer packet is sent when a payload packet fails. -/
theorem rainbow_refines_multi_static :
    (∀ o, rainbow o = multi_static o rainbow_colors) ∧
    rainbow_colors = [Color.mk 255 0 0, Color.mk 255 255 0,
      Color.mk 0 255 255, Color.mk 255 0 255] ∧
    multi_static_msgs rainbow_colors
      = [multi_static_zone_msg 1 (Color.mk 255 0 0),
         multi_static_zone_msg 2 (Color.mk 255 255 0),
         multi_static_zone_msg 3 (Color.mk 0 255 255),
         multi_static_zone_msg 4 (Color.mk 255 0 255)] ∧
    (∀ o : Nat → Bool, (∀ j, j < 4 → o j = true) → o 4 = true →
      o 5 = true →
      rainbow o
        = (multi_static_msgs rainbow_colors
            ++ [MESSAGE_SET, MESSAGE_APPLY], true)) ∧
    (∀ (o : Nat → Bool) (i : Nat), i < 4 → o i = false →
      (∀ j, j < i → o j = true) →
      rainbow o = ((multi_static_msgs rainbow_colors).take (i + 1), false) ∧
      MESSAGE_SET ∉ (rainbow o).1 ∧ MESSAGE_APPLY ∉ (rainbow o).1) := by
  have hlen : (multi_static_msgs rainbow_colors).length = 4 := by decide
  refine ⟨fun _ => rfl, by decide, by decide, ?_, ?_⟩
  · intro o h hs ha
    exact send_messages_all_ok o (multi_static_msgs rainbow_colors)
      (fun j hj => h j (by rwa [hlen] at hj)) (by rwa [hlen])
      (by rwa [hlen])
  · intro o i hi hfail hok
    have hrw := send_messages_payload_fail o (multi_static_msgs rainbow_colors)
      i (by rwa [hlen]) hfail hok
    have hr : rainbow o
        = ((multi_static_msgs rainbow_colors).take (i + 1), false) := hrw
    refine ⟨hr, ?_, ?_⟩ <;> rw [hr] <;> interval_cases i <;> decide

/-- Witness for C6: with every transfer succeeding, `rainbow` sends its
4 zone packets and then the commit and apply trailers, reporting
success. -/
theorem rainbow_refines_multi_static_witness :
    rainbow (fun _ => true)
      = (multi_static_msgs rainbow_colors
          ++ [MESSAGE_SET, MESSAGE_APPLY], true) := by
  exact rainbow_refines_multi_static.2.2.2.1 (fun _ => true)
    (fun j _ => rfl) rfl rfl

/-! ## Claim C10 -/

/-- C10: when fewer than 4 colours are supplied, `multi_static` and
`multi_breathing` mutate the caller's list in place: after the call the
caller-visible list has been extended with white entries to length 4,
so it differs from the list that was passed in. -/
theorem multi_caller_list_mutation (colors : List Color)
    (h : colors.length < 4) :
    multi_static_caller_list colors
      = colors
          ++ List.replicate (4 - colors.length) (Color.mk 255 255 255) ∧
    multi_breathing_caller_list colors
      = colors
          ++ List.replicate (4 - colors.length) (Color.mk 255 255 255) ∧
    (multi_static_caller_list colors).length = 4 ∧
    multi_static_caller_list colors ≠ colors ∧
    multi_breathing_caller_list colors ≠ colors := by
  have he : Color.ofInts 255 255 255 = Color.mk 255 255 255 := by decide
  have hs : multi_static_caller_list colors
      = colors
        ++ List.replicate (4 - colors.length) (Color.mk 255 255 255) := by
    rw [multi_static_caller_list, if_pos h, he]
  have hb : multi_breathing_caller_list colors
      = colors
        ++ List.replicate (4 - colors.length) (Color.mk 255 255 255) := by
    rw [multi_breathing_caller_list, if_pos h, he]
  have hne : colors
      ++ List.replicate (4 - colors.length) (Color.mk 255 255 255)
      ≠ colors := by
    intro heq
    have := congrArg List.length heq
    simp only [List.length_append, List.length_replicate] at this
    omega
  refine ⟨hs, hb, ?_, ?_, ?_⟩
  · rw [hs]
    simp only [List.length_append, List.length_replicate]
    omega
  · rw [hs]; exact hne
  · rw [hb]; exact hne

/-- Witness for C10: a caller list holding one black colour is extended
in place to four entries, the last three white. -/
theorem multi_caller_list_mutation_witness :
    multi_static_caller_list [Color.mk 0 0 0]
      = [Color.mk 0 0 0, Color.mk 255 255 255, Color.mk 255 255 255,
          Color.mk 255 255 255] ∧
    multi_static_caller_list [Color.mk 0 0 0] ≠ [Color.mk 0 0 0] := by
  have h := multi_caller_list_mutation [Color.mk 0 0 0] (by decide)
  exact ⟨h.1.trans (by decide), h.2.2.2.1⟩

/-! ## Claim C9 -/

/-- C9: on a connected session with a successful release,
`disconnect` releases the claimed interface, attempts kernel-driver
reattachment exactly when this session detached one (a reattachment
failure still lets dispose and the state clearing happen), disposes the
device handle, and clears the device/interface state; and on an
already-disconnected session it is a no-op performing no release,
reattach, or dispose action. -/
theorem disconnect_spec (o : DisconnectOracle) (s : Session) (w : World) :
    (s.device = true → s.intf = true → o.releaseOk = true →
      DAct.release ∈ (disconnect o s w).2.2 ∧
      ((DAct.reattach ∈ (disconnect o s w).2.2) ↔ s.kdwa = true) ∧
      DAct.dispose ∈ (disconnect o s w).2.2 ∧
      (disconnect o s w).1.device = false ∧
      (disconnect o s w).1.intf = false ∧
      (disconnect o s w).2.1.claimed = false ∧
      (s.kdwa = true → o.reattachOk = true →
        (disconnect o s w).2.1.kernelAttached = true) ∧
      (s.kdwa = true → o.reattachOk = false →
        (disconnect o s w).2.1.kernelAttached = w.kernelAttached)) ∧
    (¬(s.device = true ∧ s.intf = true) →
      disconnect o s w = (s, w, [])) := by
  rcases o with ⟨rel, rea⟩
  rcases s with ⟨dev, intf, kdwa⟩
  rcases w with ⟨ka, cl⟩
  cases rel <;> cases rea <;> cases dev <;> cases intf <;> cases kdwa <;>
    cases ka <;> cases cl <;> decide

/-- Witness for C9: a connected session that had detached the kernel
driver, with release and reattach succeeding: all three actions occur,
the driver is reattached, and the state is cleared; a fresh disconnected
session is untouched. -/
theorem disconnect_spec_witness :
    (DAct.release
        ∈ (disconnect ⟨true, true⟩ ⟨true, true, true⟩ ⟨false, true⟩).2.2 ∧
      (disconnect ⟨true, true⟩ ⟨true, true, true⟩
          ⟨false, true⟩).2.1.kernelAttached = true) ∧
    disconnect ⟨true, true⟩ ⟨false, false, false⟩ ⟨true, false⟩
      = (⟨false, false, false⟩, ⟨true, false⟩, []) := by
  have h1 := (disconnect_spec ⟨true, true⟩ ⟨true, true, true⟩
    ⟨false, true⟩).1 rfl rfl rfl
  have h2 := (disconnect_spec ⟨true, true⟩ ⟨false, false, false⟩
    ⟨true, false⟩).2 (by decide)
  exact ⟨⟨h1.1, h1.2.2.2.2.2.2.1 rfl rfl⟩, h2⟩

/-! ## Claim C1 -/

/-- Counterexample to C1: a device is found, configuration succeeds, the
kernel driver is active and is detached, and the interface claim fails.
`connect` reports failure, but nothing is rolled back: the kernel driver
detached by this very attempt is left detached (the world still shows it
unbound), and the session keeps its device and interface references
instead of being as if `connect` had never been called. -/
theorem connect_no_rollback_counterexample :
    (connect ⟨true, true, true, true, true, false⟩ ⟨false, false, false⟩
        ⟨true, false⟩).2.2 = false ∧
    (connect ⟨true, true, true, true, true, false⟩ ⟨false, false, false⟩
        ⟨true, false⟩).2.1.kernelAttached = false ∧
    (connect ⟨true, true, true, true, true, false⟩ ⟨false, false, false⟩
        ⟨true, false⟩).1 ≠ (⟨false, false, false⟩ : Session) := by
  decide

/-- C1 amended: a missing device and a failure at the configuration or
interface-claim step are reported as connection failure, and no
interface claim is ever left held after a failure; but no further
rollback happens: after a claim-step failure a kernel driver detached by
this attempt stays detached and the session keeps its device and
interface references; and a kernel-driver-detach failure is not reported
at all — `connect` continues and returns success when the claim
succeeds. -/
theorem connect_failure_behavior (o : ConnectOracle) (s : Session)
    (w : World) :
    (o.found = false →
      connect o s w = ({ s with device := false }, w, false)) ∧
    (o.cfgActiveOk = false → (o.setCfgOk && o.cfgActiveOk2) = false →
      (connect o s w).2.2 = false ∧ (connect o s w).2.1 = w) ∧
    (o.claimOk = false →
      (connect o s w).2.2 = false ∧
      (connect o s w).2.1.claimed = w.claimed) ∧
    (o.found = true → (o.cfgActiveOk || (o.setCfgOk && o.cfgActiveOk2)) = true →
      w.kernelAttached = true → o.detachOk = true → o.claimOk = false →
      (connect o s w).2.1.kernelAttached = false ∧
      (connect o s w).1.intf = true ∧
      (connect o s w).1.device = true ∧
      (connect o s w).1.kdwa = true) ∧
    (o.found = true → (o.cfgActiveOk || (o.setCfgOk && o.cfgActiveOk2)) = true →
      w.kernelAttached = true → o.detachOk = false → o.claimOk = true →
      (connect o s w).2.2 = true) := by
  refine ⟨?_, ?_, ?_, ?_, ?_⟩
  · intro hf
    simp [connect, hf]
  · intro h1 h2
    cases hf : o.found
    · simp [connect, hf]
    · simp [connect, hf, h1, h2]
  · intro hcl
    cases hf : o.found
    · simp [connect, hf]
    · cases hcfg : (o.cfgActiveOk || (o.setCfgOk && o.cfgActiveOk2))
      · simp [connect, hf, hcfg]
      · cases hka : w.kernelAttached
        · simp [connect, hf, hcfg, hka, hcl]
        · cases hd : o.detachOk
          · simp [connect, hf, hcfg, hka, hd, hcl]
          · simp [connect, hf, hcfg, hka, hd, hcl]
  · intro hf hcfg hka hd hcl
    simp [connect, hf, hcfg, hka, hd, hcl]
  · intro hf hcfg hka hd hcl
    simp [connect, hf, hcfg, hka, hd, hcl]

/-- Witness for C1 amended: with no device attached, `connect` fails and
leaves the world untouched; with a detach failure followed by a
successful claim, `connect` reports success. -/
theorem connect_failure_behavior_witness :
    connect ⟨false, true, true, true, true, true⟩ ⟨false, false, false⟩
        ⟨true, false⟩
      = (⟨false, false, false⟩, ⟨true, false⟩, false) ∧
    (connect ⟨true, true, true, true, false, true⟩ ⟨false, false, false⟩
        ⟨true, false⟩).2.2 = true := by
  refine ⟨?_, ?_⟩
  · exact (connect_failure_behavior ⟨false, true, true, true, true, true⟩
      ⟨false, false, false⟩ ⟨true, false⟩).1 rfl
  · exact (connect_failure_behavior ⟨true, true, true, true, false, true⟩
      ⟨false, false, false⟩ ⟨true, false⟩).2.2.2.2 rfl rfl rfl rfl rfl
